import Mathlib

/-!
Shallow embedding of the MCV-club authentication backend
(`src/backend/server.js`). The source file contains two variants of the
server separated by a document marker: the first (lines 1-262) defines a
process-wide readiness flag `isConnected`, a `checkDatabaseConnection`
gate applied to `/register` and `/login`, and enriched profile handlers;
the second (lines 263-414) has no readiness flag and no gate on
`/register`/`/login`. Handlers are embedded as pure functions from an
explicit request, store state, and collaborator-fault model to a result
that records the HTTP response, the resulting store, and the log of
collaborator operations performed (used to state "no store call" and
"not retried" properties).

The password hasher (bcryptjs) and the token library (jsonwebtoken) are
external dependencies whose code is not in the repository; they are
modelled from the spec (sections 4.1 and 4.2), as noted on each
definition.
-/

namespace Server

/-! ## Credential hasher (modelled from the spec) -/

/-- Modelled from the spec: the Credential Hasher (bcryptjs, called at
`bcrypt.hash`/`bcrypt.compare` in server.js, library code not in the
repository). Per spec 4.1 a hash is salted per call; we record the
per-call salt together with a digest mixing the salt with the
plaintext's character codes. -/
structure BHash where
  salt : Nat
  digest : List Nat
deriving DecidableEq, Repr

/-- Digest of a plaintext under a given salt: the salt followed by the
character codes of the plaintext. -/
def mkDigest (salt : Nat) (p : String) : List Nat :=
  salt :: p.data.map Char.toNat

/-- Modelled from the spec: `hash(plaintext)` with an explicit salt
argument standing for the salt freshly drawn on each call. -/
def bcryptHash (salt : Nat) (p : String) : BHash :=
  ⟨salt, mkDigest salt p⟩

/-- Modelled from the spec: stateful hashing; the `Nat` state is the
source of fresh salts, incremented on every call, so that two successive
calls use different salts. -/
def bcryptHashS (saltState : Nat) (p : String) : BHash × Nat :=
  (bcryptHash saltState p, saltState + 1)

/-- Modelled from the spec: `verify(plaintext, hash)` recomputes the
digest from the stored salt and compares. -/
def bcryptCompare (p : String) (h : BHash) : Bool :=
  decide (h.digest = mkDigest h.salt p)

/-! ## Token service (modelled from the spec) -/

/-- Modelled from the spec: a token payload embeds the user id and an
expiry timestamp (jsonwebtoken, called at `jwt.sign`/`jwt.verify` in
server.js, library code not in the repository). -/
structure Payload where
  userId : Nat
  exp : Nat
deriving DecidableEq, Repr

/-- Modelled from the spec: the signature of a payload under the
process-wide secret. -/
def jwtSig (secret : Nat) (pl : Payload) : Nat :=
  secret + 31 * pl.userId + 37 * pl.exp

/-- A signed token: payload plus signature. -/
structure Token where
  payload : Payload
  sig : Nat
deriving DecidableEq, Repr

/-- Token lifetime: `expiresIn: "1d"`, i.e. 24 hours in seconds. -/
def tokenLifetime : Nat := 86400

/-- Modelled from the spec: `issue(userId)` signs a payload whose expiry
is 24 hours after issuance time `now`. -/
def jwtSign (secret uid now : Nat) : Token :=
  let pl : Payload := ⟨uid, now + tokenLifetime⟩
  ⟨pl, jwtSig secret pl⟩

/-- Modelled from the spec: `verify(token)` checks signature and expiry;
returns the embedded user id only if both are valid, otherwise Invalid
(`none`), without distinguishing the cause. -/
def jwtVerifyTok (secret : Nat) (t : Token) (now : Nat) : Option Nat :=
  if t.sig = jwtSig secret t.payload ∧ now < t.payload.exp then
    some t.payload.userId
  else
    none

/-- Splitting a character list at every occurrence of a separator, with
the semantics of JavaScript `String.prototype.split` on a single-character
separator: the empty list gives one empty field, adjacent separators give
empty fields, a trailing separator gives a trailing empty field. -/
def splitChar (sep : Char) : List Char → List String
  | [] => [""]
  | c :: cs =>
    let rest := splitChar sep cs
    if c = sep then
      "" :: rest
    else
      match rest with
      | [] => [String.mk [c]]
      | w :: ws => String.mk (c :: w.data) :: ws

/-- Value of a decimal digit character, `none` on non-digits. -/
def digitVal (c : Char) : Option Nat :=
  if 48 ≤ c.toNat ∧ c.toNat ≤ 57 then some (c.toNat - 48) else none

/-- Accumulating decimal parser over a character list. -/
def natFromCharsAux : List Char → Nat → Option Nat
  | [], acc => some acc
  | c :: cs, acc =>
    match digitVal c with
    | none => none
    | some d => natFromCharsAux cs (acc * 10 + d)

/-- Decimal parser: `none` on the empty list or any non-digit. -/
def natFromChars : List Char → Option Nat
  | [] => none
  | c :: cs => natFromCharsAux (c :: cs) 0

/-- Modelled from the spec: the wire form of a token, as carried in the
`Authorization` header, is three dot-separated decimal fields: user id,
expiry, signature. -/
def tokenToString (t : Token) : String :=
  toString t.payload.userId ++ "." ++ toString t.payload.exp ++ "." ++ toString t.sig

/-- Modelled from the spec: parsing the wire form back into a token;
structurally corrupt strings yield `none`. -/
def decodeToken (s : String) : Option Token :=
  match (splitChar '.' s.data).map (fun w => natFromChars w.data) with
  | [some i, some e, some g] => some ⟨⟨i, e⟩, g⟩
  | _ => none

/-- Modelled from the spec: verification of a wire-form token: decode,
then check signature and expiry; any failure yields Invalid (`none`). -/
def jwtVerifyStr (secret : Nat) (s : String) (now : Nat) : Option Nat :=
  match decodeToken s with
  | none => none
  | some t => jwtVerifyTok secret t now

/-! ## Data model and store -/

/-- A persisted user record, after the `userSchema` of server.js
(name, email, password hash, role defaulting to "member", createdAt,
optional lastLogin). -/
structure UserRec where
  id : Nat
  name : String
  email : String
  password : BHash
  role : String
  createdAt : Nat
  lastLogin : Option Nat
deriving DecidableEq, Repr

/-- The user store: the list of persisted records plus the next id the
store will assign. -/
structure Store where
  users : List UserRec
  nextId : Nat
deriving DecidableEq, Repr

/-- `User.findOne with email` : first record with the given email. -/
def findOne (st : Store) (email : String) : Option UserRec :=
  st.users.find? (fun u => decide (u.email = email))

/-- `User.findById` : first record with the given id. -/
def findById (st : Store) (uid : Nat) : Option UserRec :=
  st.users.find? (fun u => decide (u.id = uid))

/-- `user.save()` : persist a (possibly mutated) record back into the
store, replacing the record with the same id. -/
def saveUser (st : Store) (u : UserRec) : Store :=
  ⟨st.users.map (fun v => if v.id = u.id then u else v), st.nextId⟩

/-- Collaborator operations a handler may perform, logged in order so
that "no store call" and "not retried" properties can be stated. -/
inductive Effect where
  | findOp
  | findByIdOp
  | saveOp
  | hashOp
deriving DecidableEq, Repr

/-- Fault injection for collaborators: which of the calls made by a
handler throw. -/
structure Faults where
  findFails : Bool
  hashFails : Bool
  saveFails : Bool
deriving DecidableEq, Repr

/-- The fault-free environment. -/
def noFaults : Faults := ⟨false, false, false⟩

/-! ## HTTP responses and handlers -/

/-- The visible part of a user echoed by register/login:
`user: (id, name, email)` from server.js. -/
structure ApiUser where
  id : Nat
  name : String
  email : String
deriving DecidableEq, Repr

/-- A JSON response from the register/login routes: status code, the
`message` field (present on every path), and the optional `token`,
`user` and `state` fields. -/
structure ApiResponse where
  status : Nat
  message : String
  token : Option Token
  user : Option ApiUser
  state : Option Nat
deriving DecidableEq, Repr

/-- The 503 response of `checkDatabaseConnection`, which includes the
current readiness state. -/
def resp503 (readyState : Nat) : ApiResponse :=
  ⟨503, "Database connection not ready. Please try again in a few seconds.",
   none, none, some readyState⟩

/-- The catch-all 500 response of the register route. -/
def resp500reg : ApiResponse :=
  ⟨500, "Error registering user", none, none, none⟩

/-- A handler result: response, resulting store, and the ordered log of
collaborator operations performed. -/
structure HandlerOut where
  resp : ApiResponse
  store : Store
  ops : List Effect
deriving DecidableEq, Repr

/-- Body of `POST /register`. -/
structure RegisterReq where
  name : String
  email : String
  password : String
deriving DecidableEq, Repr

/-- Body of `POST /login`. -/
structure LoginReq where
  email : String
  password : String
deriving DecidableEq, Repr

/-- The `POST /register` route of the first variant (server.js lines
133-157), behind `checkDatabaseConnection` (lines 104-113): if the
readiness flag is false or the connection state is not 1, answer 503
without touching the store; otherwise look up the email (duplicate gives
400 "User already exists"), hash the password, save the new user with
role "member" and `createdAt = now`, and answer 201 with a token and the
id/name/email of the new user. Any collaborator exception is caught and
answered with the generic 500. -/
def register (ready : Bool) (readyState : Nat) (fl : Faults)
    (salt secret now : Nat) (st : Store) (req : RegisterReq) : HandlerOut :=
  if ¬ (ready ∧ readyState = 1) then
    ⟨resp503 readyState, st, []⟩
  else if fl.findFails then
    ⟨resp500reg, st, [.findOp]⟩
  else
    match findOne st req.email with
    | some _ => ⟨⟨400, "User already exists", none, none, none⟩, st, [.findOp]⟩
    | none =>
      if fl.hashFails then
        ⟨resp500reg, st, [.findOp, .hashOp]⟩
      else
        let h := bcryptHash salt req.password
        if fl.saveFails then
          ⟨resp500reg, st, [.findOp, .hashOp, .saveOp]⟩
        else
          let u : UserRec := ⟨st.nextId, req.name, req.email, h, "member", now, none⟩
          let tok := jwtSign secret u.id now
          ⟨⟨201, "User registered successfully", some tok, some ⟨u.id, u.name, u.email⟩, none⟩,
           ⟨st.users ++ [u], st.nextId + 1⟩, [.findOp, .hashOp, .saveOp]⟩

/-- The `POST /register` route of the second variant (server.js lines
342-365): the same handler body, but with no `checkDatabaseConnection`
gate in front, so the readiness flag and connection state are never
consulted (the parameters are taken, to place the route in the same
ambient process state, and ignored, as the code ignores them). -/
def registerV2 (_ready : Bool) (_readyState : Nat) (fl : Faults)
    (salt secret now : Nat) (st : Store) (req : RegisterReq) : HandlerOut :=
  if fl.findFails then
    ⟨resp500reg, st, [.findOp]⟩
  else
    match findOne st req.email with
    | some _ => ⟨⟨400, "User already exists", none, none, none⟩, st, [.findOp]⟩
    | none =>
      if fl.hashFails then
        ⟨resp500reg, st, [.findOp, .hashOp]⟩
      else
        let h := bcryptHash salt req.password
        if fl.saveFails then
          ⟨resp500reg, st, [.findOp, .hashOp, .saveOp]⟩
        else
          let u : UserRec := ⟨st.nextId, req.name, req.email, h, "member", now, none⟩
          let tok := jwtSign secret u.id now
          ⟨⟨201, "User registered successfully", some tok, some ⟨u.id, u.name, u.email⟩, none⟩,
           ⟨st.users ++ [u], st.nextId + 1⟩, [.findOp, .hashOp, .saveOp]⟩

/-- The `POST /login` route of the first variant (server.js lines
160-183), behind `checkDatabaseConnection`: look up the email (absent
gives 404 "User not found"), compare the password against the stored
hash (mismatch gives 401 "Invalid credentials"), and answer 200 with a
fresh token and the id/name/email of the user. The store is never
written. -/
def login (ready : Bool) (readyState : Nat) (fl : Faults)
    (secret now : Nat) (st : Store) (req : LoginReq) : HandlerOut :=
  if ¬ (ready ∧ readyState = 1) then
    ⟨resp503 readyState, st, []⟩
  else if fl.findFails then
    ⟨⟨500, "Login failed", none, none, none⟩, st, [.findOp]⟩
  else
    match findOne st req.email with
    | none => ⟨⟨404, "User not found", none, none, none⟩, st, [.findOp]⟩
    | some u =>
      if bcryptCompare req.password u.password then
        let tok := jwtSign secret u.id now
        ⟨⟨200, "Login successful", some tok, some ⟨u.id, u.name, u.email⟩, none⟩,
         st, [.findOp, .hashOp]⟩
      else
        ⟨⟨401, "Invalid credentials", none, none, none⟩, st, [.findOp, .hashOp]⟩

/-! ## Token middleware and profile handlers -/

/-- The token extraction of `verifyToken` (server.js lines 247-258):
`req.headers.authorization?.split(" ")[1]`, with the JavaScript falsy
check `if (!token)`: a missing header, a header without a second
space-separated component, or an empty second component all count as "no
token". The scheme word itself is never inspected. -/
def extractToken (auth : Option String) : Option String :=
  match auth with
  | none => none
  | some a =>
    match (splitChar ' ' a.data)[1]? with
    | none => none
    | some t => if t = "" then none else some t

/-- The profile view assembled by `GET /profile` (server.js lines
194-202): id, name, email, role (defaulted to "member" when falsy),
createdAt, and lastLogin defaulted to the current time for display.
It has no password field. -/
structure ProfileView where
  id : Nat
  name : String
  email : String
  role : String
  createdAt : Nat
  lastLogin : Nat
deriving DecidableEq, Repr

/-- Result of a profile route: status, message, optional profile body,
resulting store, and the log of operations performed. -/
structure ProfileOut where
  status : Nat
  message : String
  profile : Option ProfileView
  store : Store
  ops : List Effect
deriving DecidableEq, Repr

/-- The `GET /profile` route of the first variant (server.js lines
186-212) behind `verifyToken`: 401 "Access Denied" with no token, 400
"Invalid Token" when verification throws, 404 when the id no longer
resolves, otherwise 200 with the password-free profile view, with
`role` defaulted through `user.role || "member"` and `lastLogin`
displayed as `user.lastLogin || new Date()` without being persisted. -/
def getProfile (secret : Nat) (auth : Option String) (now : Nat)
    (st : Store) : ProfileOut :=
  match extractToken auth with
  | none => ⟨401, "Access Denied", none, st, []⟩
  | some s =>
    match jwtVerifyStr secret s now with
    | none => ⟨400, "Invalid Token", none, st, []⟩
    | some uid =>
      match findById st uid with
      | none => ⟨404, "User not found", none, st, [.findByIdOp]⟩
      | some u =>
        ⟨200, "Profile retrieved successfully",
         some ⟨u.id, u.name, u.email,
               (if u.role = "" then "member" else u.role),
               u.createdAt, u.lastLogin.getD now⟩,
         st, [.findByIdOp]⟩

/-- Body of `PUT /profile`: optional name and email. -/
structure PutBody where
  name : Option String
  email : Option String
deriving DecidableEq, Repr

/-- JavaScript truthiness of an optional string field, as used by
`if (name) user.name = name`: absent or empty counts as falsy. -/
def truthyStr (o : Option String) : Option String :=
  match o with
  | none => none
  | some s => if s = "" then none else some s

/-- The updated-profile subset returned by `PUT /profile`:
id, name, email, role, updatedAt. -/
structure PutProfileView where
  id : Nat
  name : String
  email : String
  role : String
  updatedAt : Nat
deriving DecidableEq, Repr

/-- Result of the `PUT /profile` route. -/
structure PutOut where
  status : Nat
  message : String
  profile : Option PutProfileView
  store : Store
  ops : List Effect
deriving DecidableEq, Repr

/-- The `PUT /profile` route of the first variant (server.js lines
215-244) behind `verifyToken`: fetch the caller's record, mutate `name`
and `email` only when present (and truthy) in the body, persist with
`user.save()`, and return the updated subset with `updatedAt = now`. -/
def putProfile (secret : Nat) (auth : Option String) (body : PutBody)
    (now : Nat) (st : Store) : PutOut :=
  match extractToken auth with
  | none => ⟨401, "Access Denied", none, st, []⟩
  | some s =>
    match jwtVerifyStr secret s now with
    | none => ⟨400, "Invalid Token", none, st, []⟩
    | some uid =>
      match findById st uid with
      | none => ⟨404, "User not found", none, st, [.findByIdOp]⟩
      | some u =>
        let u1 := match truthyStr body.name with
          | some n => { u with name := n }
          | none => u
        let u2 := match truthyStr body.email with
          | some e => { u1 with email := e }
          | none => u1
        ⟨200, "Profile updated successfully",
         some ⟨u2.id, u2.name, u2.email,
               (if u2.role = "" then "member" else u2.role), now⟩,
         saveUser st u2, [.findByIdOp, .saveOp]⟩

/-! ## Store gateway connection lifecycle -/

/-- Events observed by the connection lifecycle code of the first
variant: the asynchronous outcome of a `connectWithRetry` attempt
(lines 31-77) and the unsolicited `disconnected` event (lines 95-101). -/
inductive GwEvent where
  | attemptFailed
  | attemptSucceeded
  | disconnectedEvt
deriving DecidableEq, Repr

/-- The reaction of the lifecycle code to an event: schedule a delayed
retry (`setTimeout(connectWithRetry, 5000)`), invoke `connectWithRetry`
immediately, or do nothing. There is no terminal reaction. -/
inductive Reaction where
  | scheduleRetry (delayMs : Nat)
  | reconnectNow
  | noAction
deriving DecidableEq, Repr

/-- The gateway state: the process-wide readiness flag `isConnected`. -/
structure GwState where
  isConnected : Bool
deriving DecidableEq, Repr

/-- One step of the connection lifecycle, from server.js: a successful
attempt sets the flag true (lines 49-50); a failed attempt sets it false
and schedules a retry in 5000 ms (lines 64, 75); a `disconnected` event
sets it false and invokes `connectWithRetry()` immediately (lines
95-101). -/
def gwStep (_s : GwState) (e : GwEvent) : GwState × Reaction :=
  match e with
  | .attemptSucceeded => (⟨true⟩, .noAction)
  | .attemptFailed => (⟨false⟩, .scheduleRetry 5000)
  | .disconnectedEvt => (⟨false⟩, .reconnectNow)

/-- The reaction each event provokes, independent of any state. -/
def eventReaction : GwEvent → Reaction
  | .attemptSucceeded => .noAction
  | .attemptFailed => .scheduleRetry 5000
  | .disconnectedEvt => .reconnectNow

/-- Run the lifecycle over a sequence of events, collecting the state
and the reactions in order. -/
def gwRun (s : GwState) : List GwEvent → GwState × List Reaction
  | [] => (s, [])
  | e :: es =>
    let p := gwStep s e
    let q := gwRun p.1 es
    (q.1, p.2 :: q.2)

/-! ## Helper lemmas -/

/-- Character codes determine characters. -/
theorem charToNat_inj {a b : Char} (h : a.toNat = b.toNat) : a = b := by
  unfold Char.toNat at h
  exact Char.eq_of_val_eq (UInt32.toNat.inj h)

/-- Two plaintexts with the same digest under the same salt are equal. -/
theorem mkDigest_inj {salt : Nat} {p q : String}
    (h : mkDigest salt p = mkDigest salt q) : p = q := by
  unfold mkDigest at h
  have hmap : p.data.map Char.toNat = q.data.map Char.toNat := by
    simpa using h
  have hdata : p.data = q.data :=
    List.map_injective_iff.mpr (fun _ _ hab => charToNat_inj hab) hmap
  cases p
  cases q
  exact congrArg String.mk hdata

/-- The reactions of a run are determined eventwise, independently of
the starting state and of any earlier events. -/
theorem gwRun_reactions (s : GwState) (evs : List GwEvent) :
    (gwRun s evs).2 = evs.map eventReaction := by
  induction evs generalizing s with
  | nil => rfl
  | cons e es ih =>
    cases e <;> simp [gwRun, gwStep, eventReaction, ih]

/-! ## Claim theorems -/

/-- C2: a token issued by `issue(id)` at time `t0` verifies to `id` at
any time before its 24-hour expiry, verifies to Invalid once the expiry
has elapsed, and any signature mismatch or structural corruption of the
wire form also yields Invalid, with no distinction of cause (all three
give the same `none`). -/
theorem token_verify_spec (secret uid t0 now : Nat) :
    (now < t0 + tokenLifetime →
       jwtVerifyTok secret (jwtSign secret uid t0) now = some uid) ∧
    (t0 + tokenLifetime ≤ now →
       jwtVerifyTok secret (jwtSign secret uid t0) now = none) ∧
    (∀ t : Token, t.sig ≠ jwtSig secret t.payload →
       jwtVerifyTok secret t now = none) ∧
    (∀ s : String, decodeToken s = none → jwtVerifyStr secret s now = none) := by
  refine ⟨?_, ?_, ?_, ?_⟩
  · intro h
    simp [jwtVerifyTok, jwtSign, h]
  · intro h
    simp [jwtVerifyTok, jwtSign]
    omega
  · intro t ht
    simp [jwtVerifyTok, ht]
  · intro s hs
    simp [jwtVerifyStr, hs]

/-- Witness for C2 at concrete inputs: secret 1, user 5, issued at 100;
verification at 200 succeeds, at 90000 the expiry has elapsed; a token
with a wrong signature and a corrupt wire string are both Invalid. -/
theorem token_verify_spec_witness :
    jwtVerifyTok 1 (jwtSign 1 5 100) 200 = some 5 ∧
    jwtVerifyTok 1 (jwtSign 1 5 100) 90000 = none ∧
    jwtVerifyTok 1 ⟨⟨5, 86500⟩, 0⟩ 200 = none ∧
    jwtVerifyStr 1 "garbage" 200 = none := by
  refine ⟨(token_verify_spec 1 5 100 200).1 (by decide),
    (token_verify_spec 1 5 100 90000).2.1 (by decide),
    (token_verify_spec 1 5 100 200).2.2.1 ⟨⟨5, 86500⟩, 0⟩ (by decide),
    (token_verify_spec 1 5 100 200).2.2.2 "garbage" (by decide)⟩

/-- C6: hashing the same plaintext twice (the salt state advancing
between the calls) yields two different hashes, both of which verify
against the plaintext; and verifying a plaintext against the hash of a
different plaintext fails. -/
theorem bcrypt_salting_spec (saltState : Nat) (p p2 : String) (hne : p ≠ p2) :
    (bcryptHashS saltState p).1 ≠ (bcryptHashS (bcryptHashS saltState p).2 p).1 ∧
    bcryptCompare p (bcryptHashS saltState p).1 = true ∧
    bcryptCompare p (bcryptHashS (bcryptHashS saltState p).2 p).1 = true ∧
    bcryptCompare p (bcryptHash saltState p2) = false := by
  refine ⟨?_, ?_, ?_, ?_⟩
  · intro h
    have hsalt := congrArg BHash.salt h
    simp [bcryptHashS, bcryptHash] at hsalt
  · simp [bcryptHashS, bcryptHash, bcryptCompare]
  · simp [bcryptHashS, bcryptHash, bcryptCompare]
  · simp only [bcryptHash, bcryptCompare, decide_eq_false_iff_not]
    intro h
    exact hne (mkDigest_inj h).symm

/-- Witness for C6 with plaintexts "a" and "b" and salt state 0. -/
theorem bcrypt_salting_spec_witness :
    (bcryptHashS 0 "a").1 ≠ (bcryptHashS (bcryptHashS 0 "a").2 "a").1 ∧
    bcryptCompare "a" (bcryptHashS 0 "a").1 = true ∧
    bcryptCompare "a" (bcryptHashS (bcryptHashS 0 "a").2 "a").1 = true ∧
    bcryptCompare "a" (bcryptHash 0 "b") = false :=
  bcrypt_salting_spec 0 "a" "b" (by decide)

/-- C7 counterexample: on an unsolicited `disconnected` event the code
clears the flag and invokes `connectWithRetry()` immediately; it does
not schedule the reconnect attempt after the fixed 5-second delay, so
the claim that both the failure path and the disconnect path schedule
after 5 seconds is false on the disconnect path. -/
theorem reconnect_delay_counterexample :
    gwStep ⟨true⟩ .disconnectedEvt = (⟨false⟩, .reconnectNow) ∧
    Reaction.reconnectNow ≠ Reaction.scheduleRetry 5000 := by
  exact ⟨rfl, by decide⟩

/-- C7 (amended): a failed connection attempt clears the flag and
schedules a retry after exactly 5000 ms; an unsolicited disconnect
clears the flag and invokes the reconnect procedure immediately. Both
reactions depend only on the event, not on the state or on how many
failures preceded (no backoff growth, no maximum retry count), and every
event has a reaction (no terminal state). -/
theorem reconnect_policy (s : GwState) (evs : List GwEvent) :
    gwStep s .attemptFailed = (⟨false⟩, .scheduleRetry 5000) ∧
    gwStep s .disconnectedEvt = (⟨false⟩, .reconnectNow) ∧
    (gwRun s evs).2 = evs.map eventReaction := by
  exact ⟨rfl, rfl, gwRun_reactions s evs⟩

/-- C4 counterexample: the second register variant (server.js lines
342-365) has no `checkDatabaseConnection` gate: with the readiness flag
false it still performs store operations and does not answer 503. -/
theorem register_gate_counterexample :
    (registerV2 false 0 noFaults 0 0 0 ⟨[], 0⟩ ⟨"n", "e", "p"⟩).resp.status = 201 ∧
    (registerV2 false 0 noFaults 0 0 0 ⟨[], 0⟩ ⟨"n", "e", "p"⟩).resp.status ≠ 503 ∧
    (registerV2 false 0 noFaults 0 0 0 ⟨[], 0⟩ ⟨"n", "e", "p"⟩).ops ≠ [] := by
  refine ⟨by decide, by decide, by decide⟩

/-- C4 (amended): in the first variant, whose register and login routes
sit behind `checkDatabaseConnection`, a false readiness flag makes both
routes answer 503 with the current connection state in the body and
perform no collaborator operation at all. -/
theorem gate_unready (readyState : Nat) (fl : Faults) (salt secret now : Nat)
    (st : Store) (rreq : RegisterReq) (lreq : LoginReq) :
    register false readyState fl salt secret now st rreq =
      ⟨resp503 readyState, st, []⟩ ∧
    login false readyState fl secret now st lreq =
      ⟨resp503 readyState, st, []⟩ := by
  constructor
  · simp [register]
  · simp [login]

/-- C3: registering an email for which a user already exists answers 400
"User already exists", performs only the lookup (no insert or save), and
returns the store unchanged, so the existing user's record is
unaffected. -/
theorem register_duplicate_email (salt secret now : Nat) (st : Store)
    (req : RegisterReq) (u : UserRec) (h : findOne st req.email = some u) :
    register true 1 noFaults salt secret now st req =
      ⟨⟨400, "User already exists", none, none, none⟩, st, [.findOp]⟩ := by
  simp [register, noFaults, h]

/-- Witness for C3: a store holding a user with email "e@x"; a second
registration with "e@x" answers 400 and leaves the store as it was. -/
theorem register_duplicate_email_witness :
    findOne ⟨[⟨0, "n", "e@x", ⟨0, [0]⟩, "member", 0, none⟩], 1⟩ "e@x" =
      some ⟨0, "n", "e@x", ⟨0, [0]⟩, "member", 0, none⟩ ∧
    register true 1 noFaults 1 2 3 ⟨[⟨0, "n", "e@x", ⟨0, [0]⟩, "member", 0, none⟩], 1⟩
        ⟨"n2", "e@x", "q"⟩ =
      ⟨⟨400, "User already exists", none, none, none⟩,
       ⟨[⟨0, "n", "e@x", ⟨0, [0]⟩, "member", 0, none⟩], 1⟩, [.findOp]⟩ :=
  ⟨by decide,
   register_duplicate_email 1 2 3 _ ⟨"n2", "e@x", "q"⟩
     ⟨0, "n", "e@x", ⟨0, [0]⟩, "member", 0, none⟩ (by decide)⟩

/-- Looking up an email in a store extended with a user carrying that
email finds that user when the original store had none. -/
theorem findOne_append_self (st : Store) (email : String) (u : UserRec)
    (hfresh : findOne st email = none) (hu : u.email = email) (n : Nat) :
    findOne ⟨st.users ++ [u], n⟩ email = some u := by
  unfold findOne at hfresh ⊢
  simp [List.find?_append, hfresh, List.find?, hu]

/-- The register route performs one of four operation logs, depending on
the gate and which collaborator call failed first. -/
theorem register_ops_cases (ready : Bool) (readyState : Nat) (fl : Faults)
    (salt secret now : Nat) (st : Store) (req : RegisterReq) :
    (register ready readyState fl salt secret now st req).ops = [] ∨
    (register ready readyState fl salt secret now st req).ops = [.findOp] ∨
    (register ready readyState fl salt secret now st req).ops = [.findOp, .hashOp] ∨
    (register ready readyState fl salt secret now st req).ops =
      [.findOp, .hashOp, .saveOp] := by
  unfold register
  repeat' split
  all_goals tauto

/-- Every path of the register route answers with a nonempty message. -/
theorem register_message_total (ready : Bool) (readyState : Nat) (fl : Faults)
    (salt secret now : Nat) (st : Store) (req : RegisterReq) :
    (register ready readyState fl salt secret now st req).resp.message ≠ "" := by
  unfold register
  repeat' split
  all_goals simp [resp503, resp500reg]

/-- C9: a failing store lookup, a failing hash, or a failing save during
registration each surface as the generic 500 "Error registering user"
with the store unchanged; no collaborator call is ever attempted twice
(the operation is not retried); and every path, in particular every
failure path, answers with a nonempty message. -/
theorem register_failure_handling (fl : Faults) (salt secret now : Nat)
    (st : Store) (req : RegisterReq) :
    (fl.findFails = true →
       register true 1 fl salt secret now st req = ⟨resp500reg, st, [.findOp]⟩) ∧
    (fl.findFails = false → fl.hashFails = true → findOne st req.email = none →
       register true 1 fl salt secret now st req =
         ⟨resp500reg, st, [.findOp, .hashOp]⟩) ∧
    (fl.findFails = false → fl.hashFails = false → fl.saveFails = true →
       findOne st req.email = none →
       register true 1 fl salt secret now st req =
         ⟨resp500reg, st, [.findOp, .hashOp, .saveOp]⟩) ∧
    (∀ ready readyState op,
       (register ready readyState fl salt secret now st req).ops.count op ≤ 1) ∧
    (∀ ready readyState,
       (register ready readyState fl salt secret now st req).resp.message ≠ "") := by
  refine ⟨?_, ?_, ?_, ?_, ?_⟩
  · intro h
    simp [register, h]
  · intro h1 h2 h3
    simp [register, h1, h2, h3]
  · intro h1 h2 h3 h4
    simp [register, h1, h2, h3, h4]
  · intro ready readyState op
    rcases register_ops_cases ready readyState fl salt secret now st req with
      h | h | h | h <;> rw [h] <;> cases op <;> decide
  · intro ready readyState
    exact register_message_total ready readyState fl salt secret now st req

/-- Witness for C9: with a failing lookup, registering against the empty
store answers the generic 500 having attempted the lookup exactly once. -/
theorem register_failure_handling_witness :
    (Faults.mk true false false).findFails = true ∧
    register true 1 ⟨true, false, false⟩ 0 1 2 ⟨[], 0⟩ ⟨"n", "e", "p"⟩ =
      ⟨resp500reg, ⟨[], 0⟩, [.findOp]⟩ :=
  ⟨rfl, (register_failure_handling ⟨true, false, false⟩ 0 1 2 ⟨[], 0⟩
    ⟨"n", "e", "p"⟩).1 rfl⟩

/-- C10: the login route never writes the store — the resulting store is
the input store on every path, in particular after a successful login,
so every stored record including its lastLogin is unchanged — and it
never performs a save; GET /profile likewise never writes, and when the
caller's record has no lastLogin the profile it returns displays the
current time in that position without persisting anything. -/
theorem login_no_write (ready : Bool) (readyState : Nat) (fl : Faults)
    (secret now : Nat) (st : Store) (req : LoginReq) (auth : Option String) :
    (login ready readyState fl secret now st req).store = st ∧
    Effect.saveOp ∉ (login ready readyState fl secret now st req).ops ∧
    (getProfile secret auth now st).store = st ∧
    Effect.saveOp ∉ (getProfile secret auth now st).ops ∧
    (∀ s uid u, extractToken auth = some s → jwtVerifyStr secret s now = some uid →
       findById st uid = some u → u.lastLogin = none →
       (getProfile secret auth now st).profile =
         some ⟨u.id, u.name, u.email, (if u.role = "" then "member" else u.role),
               u.createdAt, now⟩) := by
  refine ⟨?_, ?_, ?_, ?_, ?_⟩
  · unfold login
    repeat' split
    all_goals rfl
  · unfold login
    repeat' split
    all_goals simp
  · unfold getProfile
    repeat' split
    all_goals rfl
  · unfold getProfile
    repeat' split
    all_goals simp
  · intro s uid u hs hv hu hl
    simp [getProfile, hs, hv, hu, hl]

/-- Witness for C10: a successful login of the single stored user leaves
the store intact, and the profile of a user without lastLogin displays
the request time. -/
theorem login_no_write_witness :
    (login true 1 noFaults 1 200 ⟨[⟨5, "n", "e", ⟨0, [0]⟩, "member", 0, none⟩], 6⟩
       ⟨"e", "p"⟩).store = ⟨[⟨5, "n", "e", ⟨0, [0]⟩, "member", 0, none⟩], 6⟩ ∧
    extractToken (some "Bearer 5.86500.3200656") = some "5.86500.3200656" ∧
    jwtVerifyStr 1 "5.86500.3200656" 200 = some 5 ∧
    findById ⟨[⟨5, "n", "e", ⟨0, [0]⟩, "member", 0, none⟩], 6⟩ 5 =
      some ⟨5, "n", "e", ⟨0, [0]⟩, "member", 0, none⟩ ∧
    (getProfile 1 (some "Bearer 5.86500.3200656") 200
       ⟨[⟨5, "n", "e", ⟨0, [0]⟩, "member", 0, none⟩], 6⟩).profile =
      some ⟨5, "n", "e", "member", 0, 200⟩ := by
  refine ⟨(login_no_write true 1 noFaults 1 200 _ ⟨"e", "p"⟩
      (some "Bearer 5.86500.3200656")).1,
    by decide, by decide, by decide, ?_⟩
  have h := (login_no_write true 1 noFaults 1 200
      ⟨[⟨5, "n", "e", ⟨0, [0]⟩, "member", 0, none⟩], 6⟩ ⟨"e", "p"⟩
      (some "Bearer 5.86500.3200656")).2.2.2.2
      "5.86500.3200656" 5 ⟨5, "n", "e", ⟨0, [0]⟩, "member", 0, none⟩
      (by decide) (by decide) (by decide) rfl
  simpa using h

/-- C1: registering a fresh email succeeds with 201, the subsequent
login with the same credentials succeeds with 200, both responses carry
a token, and both tokens verify to the id of the newly created user
(which is the id the store assigned, `st.nextId`). -/
theorem register_then_login (salt secret now : Nat) (st : Store)
    (req : RegisterReq) (hfresh : findOne st req.email = none) :
    (register true 1 noFaults salt secret now st req).resp.status = 201 ∧
    (register true 1 noFaults salt secret now st req).resp.token =
      some (jwtSign secret st.nextId now) ∧
    (login true 1 noFaults secret now
       (register true 1 noFaults salt secret now st req).store
       ⟨req.email, req.password⟩).resp.status = 200 ∧
    (login true 1 noFaults secret now
       (register true 1 noFaults salt secret now st req).store
       ⟨req.email, req.password⟩).resp.token =
      some (jwtSign secret st.nextId now) ∧
    jwtVerifyTok secret (jwtSign secret st.nextId now) now = some st.nextId := by
  have hreg : register true 1 noFaults salt secret now st req =
      ⟨⟨201, "User registered successfully", some (jwtSign secret st.nextId now),
        some ⟨st.nextId, req.name, req.email⟩, none⟩,
       ⟨st.users ++ [⟨st.nextId, req.name, req.email, bcryptHash salt req.password,
          "member", now, none⟩], st.nextId + 1⟩,
       [.findOp, .hashOp, .saveOp]⟩ := by
    simp [register, noFaults, hfresh]
  have hfind := findOne_append_self st req.email
      ⟨st.nextId, req.name, req.email, bcryptHash salt req.password, "member", now, none⟩
      hfresh rfl (st.nextId + 1)
  have hlog : login true 1 noFaults secret now
      (register true 1 noFaults salt secret now st req).store
      ⟨req.email, req.password⟩ =
      ⟨⟨200, "Login successful", some (jwtSign secret st.nextId now),
        some ⟨st.nextId, req.name, req.email⟩, none⟩,
       ⟨st.users ++ [⟨st.nextId, req.name, req.email, bcryptHash salt req.password,
          "member", now, none⟩], st.nextId + 1⟩,
       [.findOp, .hashOp]⟩ := by
    rw [hreg]
    have hcmp : bcryptCompare req.password (bcryptHash salt req.password) = true := by
      simp [bcryptCompare, bcryptHash]
    simp [login, noFaults, hfind, hcmp]
  refine ⟨by rw [hreg], by rw [hreg], by rw [hlog], by rw [hlog], ?_⟩
  simp [jwtVerifyTok, jwtSign, tokenLifetime]

/-- Witness for C1: registering "e" against the empty store and logging
in; both tokens verify to user id 0. -/
theorem register_then_login_witness :
    findOne ⟨[], 0⟩ "e" = none ∧
    ((register true 1 noFaults 0 1 2 ⟨[], 0⟩ ⟨"n", "e", "p"⟩).resp.status = 201 ∧
     (register true 1 noFaults 0 1 2 ⟨[], 0⟩ ⟨"n", "e", "p"⟩).resp.token =
       some (jwtSign 1 0 2) ∧
     (login true 1 noFaults 1 2
        (register true 1 noFaults 0 1 2 ⟨[], 0⟩ ⟨"n", "e", "p"⟩).store
        ⟨"e", "p"⟩).resp.status = 200 ∧
     (login true 1 noFaults 1 2
        (register true 1 noFaults 0 1 2 ⟨[], 0⟩ ⟨"n", "e", "p"⟩).store
        ⟨"e", "p"⟩).resp.token = some (jwtSign 1 0 2) ∧
     jwtVerifyTok 1 (jwtSign 1 0 2) 2 = some 0) :=
  ⟨by decide, register_then_login 0 1 2 ⟨[], 0⟩ ⟨"n", "e", "p"⟩ (by decide)⟩

/-- C5 counterexample: a header whose scheme is not Bearer is not
treated as "no token": with the header "Basic xyz" the second word "xyz"
is passed to verification, which fails, so the route answers 400
"Invalid Token" rather than the claimed 401. -/
theorem profile_scheme_counterexample :
    (getProfile 1 (some "Basic xyz") 0 ⟨[], 0⟩).status = 400 ∧
    (getProfile 1 (some "Basic xyz") 0 ⟨[], 0⟩).status ≠ 401 := by
  exact ⟨by decide, by decide⟩

/-- C5 (amended): with no Authorization header — or, more generally,
whenever the header lacks a second nonempty space-separated word — the
response is 401 "Access Denied"; any second nonempty word is used as the
token regardless of the scheme word: if it fails verification the
response is 400 "Invalid Token", and if it verifies the route answers
200 with the caller's own record (the record whose id the token
embeds), rendered as a profile view that has no password field. -/
theorem profile_auth_spec (secret now : Nat) (st : Store) (auth : Option String) :
    (auth = none → extractToken auth = none) ∧
    (∀ a w, auth = some a → (splitChar ' ' a.data)[1]? = some w → w ≠ "" →
       extractToken auth = some w) ∧
    (extractToken auth = none →
       getProfile secret auth now st = ⟨401, "Access Denied", none, st, []⟩) ∧
    (∀ s, extractToken auth = some s → jwtVerifyStr secret s now = none →
       getProfile secret auth now st = ⟨400, "Invalid Token", none, st, []⟩) ∧
    (∀ s uid u, extractToken auth = some s → jwtVerifyStr secret s now = some uid →
       findById st uid = some u →
       u.id = uid ∧
       getProfile secret auth now st =
         ⟨200, "Profile retrieved successfully",
          some ⟨u.id, u.name, u.email, (if u.role = "" then "member" else u.role),
                u.createdAt, u.lastLogin.getD now⟩, st, [.findByIdOp]⟩) := by
  refine ⟨?_, ?_, ?_, ?_, ?_⟩
  · intro h
    simp [extractToken, h]
  · intro a w ha hw hne
    simp [extractToken, ha, hw, hne]
  · intro h
    simp [getProfile, h]
  · intro s hs hv
    simp [getProfile, hs, hv]
  · intro s uid u hs hv hu
    constructor
    · have hpred := List.find?_some hu
      simpa using hpred
    · simp [getProfile, hs, hv, hu]

/-- Witness for C5: a valid wire token for user 5 under secret 1,
carried with the Bearer scheme, returns the stored record of user 5
without its password hash. -/
theorem profile_auth_spec_witness :
    extractToken (some "Bearer 5.86500.3200656") = some "5.86500.3200656" ∧
    jwtVerifyStr 1 "5.86500.3200656" 200 = some 5 ∧
    findById ⟨[⟨5, "nm", "em", ⟨0, [0]⟩, "member", 7, some 9⟩], 6⟩ 5 =
      some ⟨5, "nm", "em", ⟨0, [0]⟩, "member", 7, some 9⟩ ∧
    getProfile 1 (some "Bearer 5.86500.3200656") 200
        ⟨[⟨5, "nm", "em", ⟨0, [0]⟩, "member", 7, some 9⟩], 6⟩ =
      ⟨200, "Profile retrieved successfully", some ⟨5, "nm", "em", "member", 7, 9⟩,
       ⟨[⟨5, "nm", "em", ⟨0, [0]⟩, "member", 7, some 9⟩], 6⟩, [.findByIdOp]⟩ := by
  refine ⟨by decide, by decide, by decide, ?_⟩
  have h := ((profile_auth_spec 1 200
      ⟨[⟨5, "nm", "em", ⟨0, [0]⟩, "member", 7, some 9⟩], 6⟩
      (some "Bearer 5.86500.3200656")).2.2.2.2 "5.86500.3200656" 5
      ⟨5, "nm", "em", ⟨0, [0]⟩, "member", 7, some 9⟩
      (by decide) (by decide) (by decide)).2
  simpa using h

/-- C8: a PUT /profile carrying a valid token and a body whose only
present field is a nonempty name mutates exactly the name: the persisted
record keeps the caller's email, password hash, role, createdAt and
lastLogin, every other stored record is untouched, and the response is
200 with the updated subset. -/
theorem put_profile_name_only (secret now : Nat) (st : Store)
    (auth : Option String) (s n : String) (uid : Nat) (u : UserRec)
    (hs : extractToken auth = some s)
    (hv : jwtVerifyStr secret s now = some uid)
    (hu : findById st uid = some u)
    (hn : n ≠ "") :
    putProfile secret auth ⟨some n, none⟩ now st =
      ⟨200, "Profile updated successfully",
       some ⟨u.id, n, u.email, (if u.role = "" then "member" else u.role), now⟩,
       saveUser st { u with name := n }, [.findByIdOp, .saveOp]⟩ ∧
    ({ u with name := n } : UserRec).email = u.email ∧
    ({ u with name := n } : UserRec).password = u.password ∧
    ({ u with name := n } : UserRec).role = u.role ∧
    ({ u with name := n } : UserRec).createdAt = u.createdAt ∧
    ({ u with name := n } : UserRec).lastLogin = u.lastLogin ∧
    (∀ v ∈ st.users, v.id ≠ u.id → v ∈ (saveUser st { u with name := n }).users) := by
  refine ⟨?_, rfl, rfl, rfl, rfl, rfl, ?_⟩
  · simp [putProfile, hs, hv, hu, truthyStr, hn]
  · intro v hv' hne
    have : (if v.id = ({ u with name := n } : UserRec).id
        then ({ u with name := n } : UserRec) else v) ∈
        (saveUser st { u with name := n }).users := by
      exact List.mem_map_of_mem _ hv'
    simpa [saveUser, hne] using this

/-- Witness for C8: updating only the name of user 5 to "X" leaves the
email "em" and all other fields in place. -/
theorem put_profile_name_only_witness :
    extractToken (some "Bearer 5.86500.3200656") = some "5.86500.3200656" ∧
    jwtVerifyStr 1 "5.86500.3200656" 200 = some 5 ∧
    findById ⟨[⟨5, "nm", "em", ⟨0, [0]⟩, "member", 7, some 9⟩], 6⟩ 5 =
      some ⟨5, "nm", "em", ⟨0, [0]⟩, "member", 7, some 9⟩ ∧
    putProfile 1 (some "Bearer 5.86500.3200656") ⟨some "X", none⟩ 200
        ⟨[⟨5, "nm", "em", ⟨0, [0]⟩, "member", 7, some 9⟩], 6⟩ =
      ⟨200, "Profile updated successfully", some ⟨5, "X", "em", "member", 200⟩,
       ⟨[⟨5, "X", "em", ⟨0, [0]⟩, "member", 7, some 9⟩], 6⟩, [.findByIdOp, .saveOp]⟩ := by
  refine ⟨by decide, by decide, by decide, ?_⟩
  have h := (put_profile_name_only 1 200
      ⟨[⟨5, "nm", "em", ⟨0, [0]⟩, "member", 7, some 9⟩], 6⟩
      (some "Bearer 5.86500.3200656") "5.86500.3200656" "X" 5
      ⟨5, "nm", "em", ⟨0, [0]⟩, "member", 7, some 9⟩
      (by decide) (by decide) (by decide) (by decide)).1
  simpa [saveUser] using h

end Server
